import Mathlib

/-!
Verification of the media detail aggregation engine of the `dim` media
server, as implemented in `src/routes/media.rs`. The Rust route handlers
are shallowly embedded as Lean functions over an explicit environment of
catalog-store collaborators; `Result<T, E>` becomes `Except E T`, Rust
`Option` becomes Lean `Option`, and `i32` arithmetic is modelled on `Int`
with truncating division (`Int.tdiv`), matching Rust `/` on `i32`.
-/

namespace Dim

/-- Media kind stored on a catalog item (`database::library::MediaType`). -/
inductive MediaType
  | movie
  | tv
  | episode
deriving DecidableEq, Repr

/-- Snapshot of a catalog media item (`database::media::Media`), with the
fields the routes read. -/
structure Media where
  id : Int
  library_id : Int
  name : String
  description : Option String
  rating : Option Int
  year : Option Int
  added : Option String
  poster_path : Option String
  backdrop_path : Option String
  media_type : Option MediaType
deriving DecidableEq, Repr

/-- One stored file of a media item (`database::mediafile::MediaFile`).
`duration` is in seconds; `none` means the file was never probed. -/
structure MediaFile where
  id : Int
  library_id : Int
  target_file : String
  codec : Option String
  audio : Option String
  original_resolution : Option String
  duration : Option Int
deriving DecidableEq, Repr

/-- An episode row (`database::episode::Episode`): its own id, the episode
number, and the underlying media item carrying description/rating/backdrop. -/
structure Episode where
  id : Int
  episode : Int
  media : Media
deriving DecidableEq, Repr

/-- A season row (`database::season::Season`). -/
structure Season where
  id : Int
  season_number : Int
  added : Option String
  poster : Option String
deriving DecidableEq, Repr

/-- A genre row (`database::genre::Genre`); the routes only use the name. -/
structure Genre where
  name : String
deriving DecidableEq, Repr

/-- A per-(user, media) playback progress row (`database::progress::Progress`);
`delta` is the stored offset in seconds. -/
structure Progress where
  delta : Int
deriving DecidableEq, Repr

/-- Errors of `errors::DimError` reachable from these routes: a database
error propagated by `?` on a `Result`, the `NoneError` produced by `?` on an
`Option` (old-Rust `try_trait`), and the invalid-media-type rejection of
`tmdb_search`. -/
inductive DimError
  | databaseError
  | noneError
  | invalidMediaType
deriving DecidableEq, Repr

/-- HTTP statuses the routes return (`rocket::http::Status`). -/
inductive Status
  | ok
  | noContent
  | notModified
  | serviceUnavailable
deriving DecidableEq, Repr

/-- An external metadata candidate returned by the TMDB provider; opaque to
the routes, which return it verbatim. -/
structure Candidate where
  title : String
  year : Option Int
deriving DecidableEq, Repr

/-- Media type tag given to the TMDB session (`scanners::tmdb::MediaType`). -/
inductive TmdbMediaType
  | movie
  | tv
deriving DecidableEq, Repr

/-- An opaque partial-update patch (`database::media::UpdateMedia`); its
contents are irrelevant to the routes, which forward it to the store. -/
structure UpdateMediaPatch where
  name : Option String
  description : Option String
deriving DecidableEq, Repr

/-- The environment of external collaborators: catalog store lookups,
the progress store, the update endpoint of the store, and the external
metadata provider. Each field models the corresponding call in
`src/routes/media.rs`; store calls return `Except` as the Rust calls
return `Result`.

`getProgress` is modelled from the spec: `GetProgress(userId, mediaId) ->
offset|absent` — the progress store itself is not under `src/`.
`updateMedia` is modelled from the spec: `UpdateMedia(id, patch) ->
()|Error`. `searchMany` is modelled from the spec: `Search(query, year?,
type, limit) -> []Candidate`. -/
structure Env where
  getMedia : Int → Except DimError Media
  getFilesOfMedia : Int → Except DimError (List MediaFile)
  getGenresOfMedia : Int → Except DimError (List Genre)
  getAllEpisodesOfTv : Int → Except DimError (List Episode)
  getSeasonsOfShow : Int → Except DimError (List Season)
  getEpisodesOfSeason : Int → Except DimError (List Episode)
  getProgress : Int → Int → Option Progress
  updateMedia : Int → UpdateMediaPatch → Except DimError Unit
  searchMany : TmdbMediaType → String → Option Int → Int → List Candidate

/-- Truncating division, the semantics of Rust `/` on `i32`. -/
def i32Div (a b : Int) : Int := Int.tdiv a b

/-- The summary record produced by `get_media_by_id` (the `json!` body of
`GET /api/v1/media/<id>`). -/
structure Summary where
  id : Int
  library_id : Int
  name : String
  description : Option String
  rating : Option Int
  year : Option Int
  added : Option String
  poster_path : Option String
  backdrop_path : Option String
  media_type : Option MediaType
  genres : List String
  duration : Int
  duration_pretty : String
deriving DecidableEq, Repr

/-- The duration fallback of `get_media_by_id` lines 67–70: on a successful
file lookup, `x.pop()?.duration?` takes the last file's probed duration and
propagates `NoneError` when the list is empty or the duration absent; on a
failed lookup the duration is 0. -/
def lastFileDuration (files : Except DimError (List MediaFile)) :
    Except DimError Int :=
  match files with
  | .ok x =>
    match x.getLast? with
    | some f =>
      match f.duration with
      | some d => .ok d
      | none => .error .noneError
    | none => .error .noneError
  | .error _ => .ok 0

/-- The per-show duration sum of the `Tv` arm (lines 83–88): keep episodes
whose file lookup succeeded with a non-empty list, take each last file's
probed duration, and sum. -/
def tvTotalLen (env : Env) (all_eps : List Episode) : Int :=
  (((all_eps.filterMap fun x => (env.getFilesOfMedia x.media.id).toOption).filter
      fun x => !x.isEmpty).filterMap
    fun x => x.getLast?.bind fun f => f.duration).sum

/-- The `duration_pretty` match of `get_media_by_id` lines 77–91. -/
def durationPretty (env : Env) (data : Media) (duration : Int) :
    Except DimError String :=
  match data.media_type with
  | some .movie | some .episode | none =>
    .ok (toString (i32Div duration 60) ++ " min")
  | some .tv =>
    match env.getAllEpisodesOfTv data.id with
    | .error e => .error e
    | .ok all_eps =>
      .ok (toString all_eps.length ++ " episodes | " ++
        toString (i32Div (tvTotalLen env all_eps) 3600) ++ " hr")

/-- Embedding of `get_media_by_id` (`GET /api/v1/media/<id>`), the
`GetSummary` operation; each `match` on an `Except` is a `?` in the
source. -/
def get_media_by_id (env : Env) (id : Int) : Except DimError Summary :=
  match env.getMedia id with
  | .error e => .error e
  | .ok data =>
    match lastFileDuration (env.getFilesOfMedia data.id) with
    | .error e => .error e
    | .ok duration =>
      match env.getGenresOfMedia data.id with
      | .error e => .error e
      | .ok genres =>
        match durationPretty env data duration with
        | .error e => .error e
        | .ok duration_pretty =>
          .ok
            { id := data.id
              library_id := data.library_id
              name := data.name
              description := data.description
              rating := data.rating
              year := data.year
              added := data.added
              poster_path := data.poster_path
              backdrop_path := data.backdrop_path
              media_type := data.media_type
              genres := genres.map Genre.name
              duration := duration
              duration_pretty := duration_pretty }

/-- One version descriptor of the `versions` arrays (lines 146–154 and
174–182): id, target file, and a display name joining codec, audio codec and
resolution with library id, with the literal fallbacks of the source
(including the source's misspelling of the audio fallback). -/
structure Version where
  id : Int
  file : String
  display_name : String
deriving DecidableEq, Repr

/-- Formatting of one file into a version descriptor, as in the `json!`
maps of `get_for_streamable` and `get_for_episode`. -/
def mkVersion (x : MediaFile) : Version :=
  { id := x.id
    file := x.target_file
    display_name :=
      x.codec.getD "Unknown VC" ++ " - " ++ x.audio.getD "Unknwon AC" ++
        " - " ++ x.original_resolution.getD "Unknown res" ++ " - Library " ++
        toString x.library_id }

/-- The progress merger: `Progress::get_for_media_user(..).map(|x| x.delta)
.unwrap_or(0)` — the stored offset, defaulting to `0` when absent. -/
def progress_for (env : Env) (user media_id : Int) : Int :=
  ((env.getProgress user media_id).map Progress.delta).getD 0

/-- One episode entry of the show branch, the `json!` body of
`get_for_episode` (lines 165–183). -/
structure EpisodeEntry where
  id : Int
  progress : Int
  episode : Int
  description : Option String
  rating : Option Int
  backdrop : Option String
  versions : List Version
deriving DecidableEq, Repr

/-- One season entry of the show branch (lines 197–203). -/
structure SeasonEntry where
  id : Int
  season_number : Int
  added : Option String
  poster : Option String
  episodes : List EpisodeEntry
deriving DecidableEq, Repr

/-- The two response shapes of `GET /api/v1/media/<id>/info`: the flat
streamable view and the recursive show view. -/
inductive InfoResponse
  | streamable (progress : Int) (versions : List Version)
  | show (seasons : List SeasonEntry)
deriving DecidableEq, Repr

/-- Embedding of `get_for_streamable` (lines 135–156): the item's own file
lookup propagates failure with `?`; progress defaults to 0. -/
def get_for_streamable (env : Env) (media : Media) (user : Int) :
    Except DimError InfoResponse :=
  match env.getFilesOfMedia media.id with
  | .error e => .error e
  | .ok media_files =>
    .ok (.streamable (progress_for env user media.id)
      (media_files.map mkVersion))

/-- Embedding of `get_for_episode` (lines 158–184): the episode's own media
item's file lookup propagates failure; description, rating and backdrop come
from the underlying media item. -/
def get_for_episode (env : Env) (media : Episode) (user : Int) :
    Except DimError EpisodeEntry :=
  match env.getFilesOfMedia media.media.id with
  | .error e => .error e
  | .ok media_files =>
    .ok
    { id := media.id
      progress := progress_for env user media.id
      episode := media.episode
      description := media.media.description
      rating := media.media.rating
      backdrop := media.media.backdrop_path
      versions := media_files.map mkVersion }

/-- One season's entry in `get_for_show`: `none` when the season's episode
fetch failed (that season is dropped by `filter_map`), otherwise the season
entry whose episodes keep only the successfully assembled ones. -/
def seasonEntry (env : Env) (user : Int) (x : Season) : Option SeasonEntry :=
  ((env.getEpisodesOfSeason x.id).toOption).map fun y =>
    { id := x.id
      season_number := x.season_number
      added := x.added
      poster := x.poster
      episodes := y.filterMap fun z => (get_for_episode env z user).toOption }

/-- Embedding of `get_for_show` (lines 186–207). -/
def get_for_show (env : Env) (media : Media) (user : Int) :
    Except DimError InfoResponse :=
  match env.getSeasonsOfShow media.id with
  | .error e => .error e
  | .ok seasons => .ok (.show (seasons.filterMap (seasonEntry env user)))

/-- Embedding of `get_extra_info_by_id` (`GET /api/v1/media/<id>/info`),
the `GetDetail` operation: dispatch on the media type. -/
def get_extra_info_by_id (env : Env) (id user : Int) :
    Except DimError InfoResponse :=
  match env.getMedia id with
  | .error e => .error e
  | .ok media =>
    match media.media_type with
    | some .movie | some .episode | none => get_for_streamable env media user
    | some .tv => get_for_show env media user

/-- Embedding of `update_media_by_id` (`PATCH /api/v1/media/<id>`, lines
217–228): success becomes `204 No Content`, any failure `304 Not Modified`. -/
def update_media_by_id (env : Env) (id : Int) (data : UpdateMediaPatch) :
    Except Status Status :=
  match env.updateMedia id data with
  | .ok _ => .ok .noContent
  | .error _ => .error .notModified

/-- Embedding of `tmdb_search` (`GET /api/v1/media/tmdb_search`, lines
254–270), the `SearchExternal` operation: validate the media-type string,
then delegate to the provider with a limit of 15 and return the candidates
verbatim. -/
def tmdb_search (env : Env) (query : String) (year : Option Int)
    (media_type : String) : Except DimError (List Candidate) :=
  match media_type with
  | "movie" => .ok (env.searchMany .movie query year 15)
  | "tv" => .ok (env.searchMany .tv query year 15)
  | _ => .error .invalidMediaType

/-- Embedding of `rematch` (`PATCH /api/v1/media/<id>/match`, lines
282–301): the body is commented out in the source; the handler reads
nothing, changes nothing, and returns `503 Service Unavailable` as its `Ok`
payload. The environment is threaded through to express that state is
untouched. -/
def rematch (env : Env) (id tmdb_id : Int) : Except DimError Status × Env :=
  (.ok .serviceUnavailable, env)

/-- Upsert into the progress store. Modelled from the spec:
`SetProgress(userId, mediaId, offset)` upserts the (user, media) row —
`Progress::set` lives in the database crate, outside `src/`. -/
def setProgress (env : Env) (user media_id offset : Int) : Env :=
  { env with
    getProgress := fun u m =>
      if u = user ∧ m = media_id then some ⟨offset⟩ else env.getProgress u m }

/-- Embedding of `map_progress` (`POST /api/v1/media/<id>/progress`), the
`RecordProgress` operation: upsert the row, return `200 OK`. -/
def map_progress (env : Env) (id offset user : Int) :
    Except DimError Status × Env :=
  (.ok .ok, setProgress env user id offset)

/-! Concrete sample data used to exercise the routes on closed inputs. -/

/-- An environment in which every store lookup fails and the provider
returns nothing; concrete scenarios override individual fields. -/
def noEnv : Env where
  getMedia := fun _ => .error .databaseError
  getFilesOfMedia := fun _ => .error .databaseError
  getGenresOfMedia := fun _ => .error .databaseError
  getAllEpisodesOfTv := fun _ => .error .databaseError
  getSeasonsOfShow := fun _ => .error .databaseError
  getEpisodesOfSeason := fun _ => .error .databaseError
  getProgress := fun _ _ => none
  updateMedia := fun _ _ => .error .databaseError
  searchMany := fun _ _ _ _ => []

/-- A movie catalog item with id 1. -/
def movieItem : Media :=
  { id := 1, library_id := 1, name := "Blade Runner", description := none
    rating := some 8, year := some 1982, added := none, poster_path := none
    backdrop_path := none, media_type := some .movie }

/-- A fully probed media file of 7230 seconds. -/
def fileA : MediaFile :=
  { id := 10, library_id := 1, target_file := "/media/a.mkv"
    codec := some "h264", audio := some "aac"
    original_resolution := some "1080p", duration := some 7230 }

/-- A probed file of the given duration, used for episode files. -/
def fileDur (n d : Int) : MediaFile :=
  { id := n, library_id := 1, target_file := "/media/ep.mkv"
    codec := some "h264", audio := some "aac"
    original_resolution := some "1080p", duration := some d }

/-- Environment: movie 1 exists, its genre list is empty, but its file
lookup fails outright. -/
def envMovieNoFiles : Env :=
  { noEnv with
    getMedia := fun i => if i = 1 then .ok movieItem else .error .databaseError
    getGenresOfMedia := fun _ => .ok [] }

/-- Environment: movie 1 exists and its file lookup succeeds with an empty
list. -/
def envMovieEmptyFiles : Env :=
  { envMovieNoFiles with getFilesOfMedia := fun _ => .ok [] }

/-- Environment: movie 1 exists with the single probed file `fileA`. -/
def envMovie : Env :=
  { envMovieNoFiles with
    getFilesOfMedia := fun i =>
      if i = 1 then .ok [fileA] else .error .databaseError }

/-! Claim theorems. -/

/-- C1, counterexample: for movie 1 whose file lookup succeeds but yields no
files, `GetSummary` does not return duration 0 with `"0 min"` as the claim
states; the `?` on `x.pop()` propagates `NoneError` and the whole call
fails. -/
theorem getSummary_emptyFiles_errors :
    get_media_by_id envMovieEmptyFiles 1 = .error DimError.noneError := rfl

/-- C1 (amended): for a streamable item (`Movie`/`Episode`/unset type),
`GetSummary` takes the duration from the last file in storage order and
formats `duration_pretty` as `"<N> min"` with `N = duration / 60`
truncated; when the file lookup itself fails the duration is 0 and the
string `"0 min"`; but when the lookup succeeds and yields no files, or the
last file has no probed duration, the call returns a `NoneError` rather
than 0. -/
theorem getSummary_streamable_duration (env : Env) (id : Int) (m : Media)
    (gs : List Genre)
    (hm : env.getMedia id = .ok m)
    (hstream : m.media_type = some .movie ∨ m.media_type = some .episode ∨
      m.media_type = none)
    (hg : env.getGenresOfMedia m.id = .ok gs) :
    (∀ e, env.getFilesOfMedia m.id = .error e →
      ∃ s, get_media_by_id env id = .ok s ∧ s.duration = 0 ∧
        s.duration_pretty = "0 min") ∧
    (∀ files, env.getFilesOfMedia m.id = .ok files → files.getLast? = none →
      get_media_by_id env id = .error .noneError) ∧
    (∀ files f, env.getFilesOfMedia m.id = .ok files →
      files.getLast? = some f → f.duration = none →
      get_media_by_id env id = .error .noneError) ∧
    (∀ files f d, env.getFilesOfMedia m.id = .ok files →
      files.getLast? = some f → f.duration = some d →
      ∃ s, get_media_by_id env id = .ok s ∧ s.duration = d ∧
        s.duration_pretty = toString (i32Div d 60) ++ " min") := by
  have hpretty : ∀ d : Int,
      durationPretty env m d = .ok (toString (i32Div d 60) ++ " min") := by
    intro d
    rcases hstream with h | h | h <;> simp [durationPretty, h]
  refine ⟨?_, ?_, ?_, ?_⟩
  · intro e he
    refine ⟨{ id := m.id, library_id := m.library_id, name := m.name
              description := m.description, rating := m.rating
              year := m.year, added := m.added
              poster_path := m.poster_path
              backdrop_path := m.backdrop_path, media_type := m.media_type
              genres := gs.map Genre.name, duration := 0
              duration_pretty := toString (i32Div 0 60) ++ " min" },
      ?_, rfl, rfl⟩
    simp [get_media_by_id, hm, lastFileDuration, he, hg, hpretty 0]
  · intro files hf hlast
    simp [get_media_by_id, hm, lastFileDuration, hf, hlast]
  · intro files f hf hlast hdur
    simp [get_media_by_id, hm, lastFileDuration, hf, hlast, hdur]
  · intro files f d hf hlast hdur
    refine ⟨{ id := m.id, library_id := m.library_id, name := m.name
              description := m.description, rating := m.rating
              year := m.year, added := m.added
              poster_path := m.poster_path
              backdrop_path := m.backdrop_path, media_type := m.media_type
              genres := gs.map Genre.name, duration := d
              duration_pretty := toString (i32Div d 60) ++ " min" },
      ?_, rfl, rfl⟩
    simp [get_media_by_id, hm, lastFileDuration, hf, hlast, hdur, hg,
      hpretty d]

/-- C1, witness: in `envMovieNoFiles` the file lookup of movie 1 fails, and
`GetSummary` succeeds with duration 0 and `"0 min"`. -/
theorem getSummary_streamable_duration_witness :
    ∃ s, get_media_by_id envMovieNoFiles 1 = .ok s ∧ s.duration = 0 ∧
      s.duration_pretty = "0 min" :=
  (getSummary_streamable_duration envMovieNoFiles 1 movieItem []
    rfl (Or.inl rfl) rfl).1 DimError.databaseError rfl

/-- A TV show catalog item with id 2. -/
def showItem : Media :=
  { id := 2, library_id := 1, name := "The Wire", description := none
    rating := some 9, year := some 2002, added := none, poster_path := none
    backdrop_path := none, media_type := some .tv }

/-- Media item underlying an episode, with the given id. -/
def mkEpMedia (n : Int) : Media :=
  { id := n, library_id := 1, name := "ep", description := some "desc"
    rating := some 7, year := none, added := none, poster_path := none
    backdrop_path := some "/b.jpg", media_type := some .episode }

/-- The three sample episodes of show 2: two with probed files (1800 s and
2400 s), one whose file lookup fails. -/
def ep1 : Episode := { id := 201, episode := 1, media := mkEpMedia 101 }

/-- Second sample episode. -/
def ep2 : Episode := { id := 202, episode := 2, media := mkEpMedia 102 }

/-- Third sample episode; its media has no files. -/
def ep3 : Episode := { id := 203, episode := 1, media := mkEpMedia 103 }

/-- Environment for the show scenario of the spec: show 2 has 3 episodes,
two of which have a probed file (1800 s, 2400 s); the show's own file
lookup and the third episode's file lookup fail. -/
def envShow : Env :=
  { noEnv with
    getMedia := fun i => if i = 2 then .ok showItem else .error .databaseError
    getGenresOfMedia := fun _ => .ok []
    getAllEpisodesOfTv := fun i =>
      if i = 2 then .ok [ep1, ep2, ep3] else .error .databaseError
    getFilesOfMedia := fun i =>
      if i = 101 then .ok [fileDur 21 1800]
      else if i = 102 then .ok [fileDur 22 2400]
      else .error .databaseError }

/-- C2: for a `Tv` item, a successful `GetSummary` formats
`duration_pretty` as `"<episode_count> episodes | <hours> hr"`, where the
episode count is the length of the full episode list regardless of
per-episode duration availability, and the hours are the truncated
division by 3600 of the sum of last-file durations over exactly those
episodes whose file lookup succeeded, was non-empty, and whose last file
has a probed duration. -/
theorem getSummary_tv_duration_pretty (env : Env) (id : Int) (m : Media)
    (eps : List Episode) (s : Summary)
    (hm : env.getMedia id = .ok m)
    (htv : m.media_type = some MediaType.tv)
    (heps : env.getAllEpisodesOfTv m.id = .ok eps)
    (hs : get_media_by_id env id = .ok s) :
    s.duration_pretty =
      toString eps.length ++ " episodes | " ++
        toString (i32Div
          (((eps.filterMap fun x =>
                (env.getFilesOfMedia x.media.id).toOption).filter
              fun x => !x.isEmpty).filterMap
            fun x => x.getLast?.bind fun f => f.duration).sum 3600) ++
        " hr" := by
  unfold get_media_by_id at hs
  cases hld : lastFileDuration (env.getFilesOfMedia m.id) with
  | error e => simp only [hm, hld] at hs; exact Except.noConfusion hs
  | ok dur =>
    cases hgen : env.getGenresOfMedia m.id with
    | error e =>
      simp only [hm, hld, hgen] at hs
      exact Except.noConfusion hs
    | ok gs =>
      have hdp : durationPretty env m dur =
          .ok (toString eps.length ++ " episodes | " ++
            toString (i32Div (tvTotalLen env eps) 3600) ++ " hr") := by
        simp [durationPretty, htv, heps]
      simp only [hm, hld, hgen, hdp, Except.ok.injEq] at hs
      rw [← hs]
      rfl

/-- C2, witness: the spec scenario — show 2 with 3 episodes, probed files
of 1800 s and 2400 s — yields `duration_pretty = "3 episodes | 1 hr"`. -/
theorem getSummary_tv_duration_pretty_witness :
    ∃ s, get_media_by_id envShow 2 = .ok s ∧
      s.duration_pretty = "3 episodes | 1 hr" := by
  refine ⟨_, rfl, ?_⟩
  exact (getSummary_tv_duration_pretty envShow 2 showItem [ep1, ep2, ep3] _
    rfl rfl rfl rfl).trans rfl

/-- A media file with no audio codec metadata. -/
def fileNoAudio : MediaFile :=
  { id := 7, library_id := 3, target_file := "/media/x.mkv"
    codec := some "h264", audio := none
    original_resolution := some "1080p", duration := some 7230 }

/-- C3: evaluation of the version lister at a file with a missing audio
codec. The source renders the fallback as the misspelled literal
`"Unknwon AC"` (line 151 and 179), not `"Unknown AC"` as the spec's
contract states; id, path, ordering and the other fallbacks behave as
specified. -/
theorem mkVersion_missing_audio_misspelled :
    mkVersion fileNoAudio =
      { id := 7, file := "/media/x.mkv"
        display_name := "h264 - Unknwon AC - 1080p - Library 3" } ∧
    [fileA, fileNoAudio].map mkVersion =
      [mkVersion fileA, mkVersion fileNoAudio] := ⟨rfl, rfl⟩

/-- C4: for a `Tv` item whose season list resolves, `GetDetail` always
succeeds, producing one entry per season whose episode fetch succeeded:
a season whose episode fetch fails yields no entry, and within a season
every episode whose assembly fails is dropped from the episode list. -/
theorem getDetail_show_omits_failures (env : Env) (id user : Int) (m : Media)
    (seasons : List Season)
    (hm : env.getMedia id = .ok m)
    (htv : m.media_type = some MediaType.tv)
    (hseasons : env.getSeasonsOfShow m.id = .ok seasons) :
    get_extra_info_by_id env id user =
      .ok (.show (seasons.filterMap (seasonEntry env user))) ∧
    (∀ x : Season, (env.getEpisodesOfSeason x.id).toOption = none →
      seasonEntry env user x = none) ∧
    (∀ (x : Season) (y : List Episode) (entry : SeasonEntry),
      env.getEpisodesOfSeason x.id = .ok y →
      seasonEntry env user x = some entry →
      entry.episodes =
        y.filterMap fun z => (get_for_episode env z user).toOption) := by
  refine ⟨?_, ?_, ?_⟩
  · simp [get_extra_info_by_id, hm, htv, get_for_show, hseasons]
  · intro x hx
    simp [seasonEntry, hx]
  · intro x y entry hy hentry
    simp [seasonEntry, hy] at hentry
    obtain ⟨a, ha, hentry⟩ := hentry
    obtain rfl : y = a := by simpa [Except.toOption] using ha
    rw [← hentry]

/-- Season A (id 301) of the sample show; its episode fetch succeeds. -/
def seasonA : Season :=
  { id := 301, season_number := 1, added := none, poster := none }

/-- Season B (id 302) of the sample show; its episode fetch fails. -/
def seasonB : Season :=
  { id := 302, season_number := 2, added := none, poster := none }

/-- Environment for the show-detail scenario: show 2 has seasons A and B;
season A's episode fetch yields `[ep1, ep2, ep3]` (episode `ep3`'s file
lookup fails, so its assembly fails), season B's episode fetch fails. -/
def envShowDetail : Env :=
  { envShow with
    getSeasonsOfShow := fun i =>
      if i = 2 then .ok [seasonA, seasonB] else .error .databaseError
    getEpisodesOfSeason := fun i =>
      if i = 301 then .ok [ep1, ep2, ep3] else .error .databaseError }

/-- C4, witness: on the sample show, `GetDetail` succeeds and returns
exactly the seasons whose episode fetch succeeded. -/
theorem getDetail_show_omits_failures_witness :
    get_extra_info_by_id envShowDetail 2 9 =
      .ok (.show ([seasonA, seasonB].filterMap (seasonEntry envShowDetail 9))) ∧
    seasonEntry envShowDetail 9 seasonB = none :=
  ⟨(getDetail_show_omits_failures envShowDetail 2 9 showItem
      [seasonA, seasonB] rfl rfl rfl).1,
    (getDetail_show_omits_failures envShowDetail 2 9 showItem
      [seasonA, seasonB] rfl rfl rfl).2.1 seasonB rfl⟩

/-- C5: `SearchExternal` rejects any media-type string other than
`"movie"` and `"tv"` with `InvalidMediaType`, independently of the
provider (no external call is made: the result is the same for every
environment); for the two valid strings it returns the provider's
candidates for a limit of 15, verbatim. -/
theorem tmdb_search_validates_media_type (query : String) (year : Option Int)
    (media_type : String)
    (hmov : media_type ≠ "movie") (htv : media_type ≠ "tv") :
    (∀ env : Env,
      tmdb_search env query year media_type = .error .invalidMediaType) ∧
    (∀ env env' : Env,
      tmdb_search env query year media_type =
        tmdb_search env' query year media_type) ∧
    (∀ env : Env,
      tmdb_search env query year "movie" =
        .ok (env.searchMany .movie query year 15)) ∧
    (∀ env : Env,
      tmdb_search env query year "tv" =
        .ok (env.searchMany .tv query year 15)) := by
  have hinv : ∀ env : Env,
      tmdb_search env query year media_type = .error .invalidMediaType := by
    intro env
    unfold tmdb_search
    split
    · exact absurd rfl hmov
    · exact absurd rfl htv
    · rfl
  exact ⟨hinv, fun env env' => (hinv env).trans (hinv env').symm,
    fun env => rfl, fun env => rfl⟩

/-- C5, witness: `"bogus"` is rejected with `InvalidMediaType` in the
empty environment, and `"movie"` delegates to the provider verbatim. -/
theorem tmdb_search_validates_media_type_witness :
    tmdb_search noEnv "dune" none "bogus" = .error .invalidMediaType ∧
    tmdb_search noEnv "dune" none "movie" =
      .ok (noEnv.searchMany .movie "dune" none 15) :=
  ⟨(tmdb_search_validates_media_type "dune" none "bogus"
      (by decide) (by decide)).1 noEnv,
    (tmdb_search_validates_media_type "dune" none "bogus"
      (by decide) (by decide)).2.2.1 noEnv⟩

/-- C6: `UpdateMedia` maps a successful store update to `204 No Content`
and any store failure, whatever its cause, to `304 Not Modified`. -/
theorem update_media_outcomes (env : Env) (id : Int)
    (patch : UpdateMediaPatch) :
    (env.updateMedia id patch = .ok () →
      update_media_by_id env id patch = .ok .noContent) ∧
    (∀ e, env.updateMedia id patch = .error e →
      update_media_by_id env id patch = .error .notModified) := by
  constructor
  · intro h
    simp [update_media_by_id, h]
  · intro e h
    simp [update_media_by_id, h]

/-- Environment in which the store accepts every update. -/
def envUpdOk : Env := { noEnv with updateMedia := fun _ _ => .ok () }

/-- C6, witness: a successful update yields `No Content`, and in the
all-failing environment any update yields `Not Modified`. -/
theorem update_media_outcomes_witness :
    update_media_by_id envUpdOk 1 ⟨none, none⟩ = .ok .noContent ∧
    update_media_by_id noEnv 1 ⟨none, none⟩ = .error .notModified :=
  ⟨(update_media_outcomes envUpdOk 1 ⟨none, none⟩).1 rfl,
    (update_media_outcomes noEnv 1 ⟨none, none⟩).2 .databaseError rfl⟩

/-- C7: `RematchMedia` reports `503 Service Unavailable` as its payload
for every media id and external id, and returns the environment — catalog
and progress state — unchanged: no metadata refresh is attempted. -/
theorem rematch_unavailable_and_pure (env : Env) (id tmdb_id : Int) :
    rematch env id tmdb_id = (.ok .serviceUnavailable, env) := rfl

/-- C8: the progress merger yields the stored offset when a row exists and
0 when it is absent, never failing; and after `RecordProgress(media, user,
offset)` with no further progress calls, `GetDetail(media, user)` on a
streamable item reports `progress = offset`. -/
theorem progress_merge_and_roundtrip (env : Env) (user mid offset : Int)
    (m : Media) (p : Progress) (files : List MediaFile)
    (hm : env.getMedia mid = .ok m)
    (hid : m.id = mid)
    (hstream : m.media_type = some .movie ∨ m.media_type = some .episode ∨
      m.media_type = none)
    (hfiles : env.getFilesOfMedia mid = .ok files) :
    (env.getProgress user mid = some p →
      progress_for env user mid = p.delta) ∧
    (env.getProgress user mid = none → progress_for env user mid = 0) ∧
    get_extra_info_by_id (map_progress env mid offset user).2 mid user =
      .ok (.streamable offset (files.map mkVersion)) := by
  refine ⟨?_, ?_, ?_⟩
  · intro h
    simp [progress_for, h]
  · intro h
    simp [progress_for, h]
  · rcases hstream with h | h | h <;>
      simp [map_progress, get_extra_info_by_id, setProgress, hm, h,
        get_for_streamable, hid, hfiles, progress_for]

/-- C8, witness: recording offset 300 for user 9 on movie 1 and fetching
detail reports progress 300. -/
theorem progress_merge_and_roundtrip_witness :
    get_extra_info_by_id (map_progress envMovie 1 300 9).2 1 9 =
      .ok (.streamable 300 ([fileA].map mkVersion)) :=
  (progress_merge_and_roundtrip envMovie 9 1 300 movieItem ⟨0⟩ [fileA]
    rfl rfl (Or.inl rfl) rfl).2.2

/-- C9: an episode entry of the show branch carries exactly id, progress,
episode number, description, rating, backdrop and versions, with
description, rating and backdrop taken from the episode's underlying media
item and versions built over the episode's own media item's files. -/
theorem episode_entry_fields (env : Env) (user : Int) (e : Episode)
    (files : List MediaFile)
    (hfiles : env.getFilesOfMedia e.media.id = .ok files) :
    get_for_episode env e user =
      .ok { id := e.id
            progress := progress_for env user e.id
            episode := e.episode
            description := e.media.description
            rating := e.media.rating
            backdrop := e.media.backdrop_path
            versions := files.map mkVersion } := by
  simp [get_for_episode, hfiles]

/-- C9, witness: episode `ep1` of the sample show assembles to the entry
built from its own media item and single file. -/
theorem episode_entry_fields_witness :
    get_for_episode envShow ep1 9 =
      .ok { id := ep1.id
            progress := progress_for envShow 9 ep1.id
            episode := ep1.episode
            description := ep1.media.description
            rating := ep1.media.rating
            backdrop := ep1.media.backdrop_path
            versions := [fileDur 21 1800].map mkVersion } :=
  episode_entry_fields envShow 9 ep1 [fileDur 21 1800] rfl

/-- C10: in the streamable branch of `GetDetail`, a failure of the item's
own file lookup propagates and fails the whole call, while when the file
lookup succeeds the call succeeds, the progress lookup never failing but
defaulting to 0 when no row is present. -/
theorem streamable_file_error_propagates (env : Env) (id user : Int)
    (m : Media)
    (hm : env.getMedia id = .ok m)
    (hstream : m.media_type = some .movie ∨ m.media_type = some .episode ∨
      m.media_type = none) :
    (∀ e, env.getFilesOfMedia m.id = .error e →
      get_extra_info_by_id env id user = .error e) ∧
    (∀ files, env.getFilesOfMedia m.id = .ok files →
      get_extra_info_by_id env id user =
        .ok (.streamable (progress_for env user m.id)
          (files.map mkVersion))) ∧
    (env.getProgress user m.id = none → progress_for env user m.id = 0) := by
  refine ⟨?_, ?_, ?_⟩
  · intro e he
    rcases hstream with h | h | h <;>
      simp [get_extra_info_by_id, hm, h, get_for_streamable, he]
  · intro files hfiles
    rcases hstream with h | h | h <;>
      simp [get_extra_info_by_id, hm, h, get_for_streamable, hfiles]
  · intro h
    simp [progress_for, h]

/-- C10, witness: movie 1 whose file lookup fails makes the whole detail
call fail with that error, while its progress merger still defaults to
0. -/
theorem streamable_file_error_propagates_witness :
    get_extra_info_by_id envMovieNoFiles 1 9 = .error .databaseError ∧
    progress_for envMovieNoFiles 9 1 = 0 :=
  ⟨(streamable_file_error_propagates envMovieNoFiles 1 9 movieItem
      rfl (Or.inl rfl)).1 .databaseError rfl,
    (streamable_file_error_propagates envMovieNoFiles 1 9 movieItem
      rfl (Or.inl rfl)).2.2 rfl⟩

end Dim
